import Mathlib

/-!
Verification of the `network` unit-file formatter: an embedding of the
data model and operations of `src/network.rs` (interface and device
unit-file serialization), together with theorems checking the documented
behaviour: unit naming, priority defaulting and zero-padding, MAC and
IP-network rendering, and the exact section structure of the generated
configuration documents.
-/

set_option maxHeartbeats 1000000
set_option maxRecDepth 8192

/-- Canonical textual form of an external IP address.  The source treats
`std::net::IpAddr` as an opaque value whose only use is its canonical
`Display` rendering (IPv4 dotted-decimal, IPv6 compressed form), produced
by the standard library; we model the address by that canonical string. -/
structure IpAddr where
  canonical : String

/-- Rendering of an `IpAddr` (delegation to its canonical form). -/
def IpAddr.render (a : IpAddr) : String := a.canonical

/-- The source struct `IpNetwork { addr: IpAddr, prefix: u8 }`.  The `u8`
field is modelled as `Fin 256`; it is called `prefixLen` here because the
source's field name is a reserved word in this development. -/
structure IpNetwork where
  addr : IpAddr
  prefixLen : Fin 256

/-- Display for `IpNetwork`: `write!(f, "{}/{}", self.addr, self.prefix)`. -/
def IpNetwork.render (n : IpNetwork) : String :=
  n.addr.render ++ "/" ++ Nat.repr n.prefixLen.val

/-- The source struct `NetworkRoute { destination: IpNetwork, gateway: IpAddr }`. -/
structure NetworkRoute where
  destination : IpNetwork
  gateway : IpAddr

/-- The source tuple struct `MacAddr(u8, u8, u8, u8, u8, u8)`. -/
structure MacAddr where
  b0 : Fin 256
  b1 : Fin 256
  b2 : Fin 256
  b3 : Fin 256
  b4 : Fin 256
  b5 : Fin 256

/-- Zero-padding to a minimum width of 2, as in the format specifiers
`{:02}` and `{:02x}` used by the source. -/
def zeroPad2 (s : String) : String :=
  if s.length < 2 then "0" ++ s else s

/-- One byte under the `{:02x}` format specifier: lowercase hexadecimal,
zero-padded to a minimum width of 2. -/
def byteHex (b : Fin 256) : String :=
  zeroPad2 (Nat.toDigits 16 b.val).asString

/-- Display for `MacAddr`:
`write!(f, "{:02x}:{:02x}:{:02x}:{:02x}:{:02x}:{:02x}", ...)`. -/
def MacAddr.render (m : MacAddr) : String :=
  byteHex m.b0 ++ ":" ++ byteHex m.b1 ++ ":" ++ byteHex m.b2 ++ ":" ++
  byteHex m.b3 ++ ":" ++ byteHex m.b4 ++ ":" ++ byteHex m.b5

/-- The source struct `Interface`. -/
structure Interface where
  name : Option String
  mac_address : Option MacAddr
  priority : Option Nat
  nameservers : List IpAddr
  ip_addresses : List IpNetwork
  routes : List NetworkRoute
  bond : Option String

/-- The source struct `Section` (a custom netdev section). -/
structure Section where
  name : String
  attributes : List (String × String)

/-- The source struct `Device`. -/
structure Device where
  name : String
  kind : String
  mac_address : MacAddr
  priority : Option Nat
  sections : List Section

/-- The `{:02}` rendering of a priority value, as used by both
`Interface::unit_name` and `Device::unit_name`. -/
def padPriority (p : Nat) : String := zeroPad2 (Nat.repr p)

/-- `Interface::unit_name`.  The source computes
`format!("{:02}-{}.network", priority.unwrap_or(10), name.unwrap_or_else(|| mac.unwrap_or_else(|| panic!(..)).to_string()))`;
the panic on a name-less, MAC-less interface is modelled as `none`. -/
def Interface.unit_name (i : Interface) : Option String :=
  match i.name with
  | some n => some (padPriority (i.priority.getD 10) ++ "-" ++ n ++ ".network")
  | none =>
    match i.mac_address with
    | some m => some (padPriority (i.priority.getD 10) ++ "-" ++ m.render ++ ".network")
    | none => none

/-- `Interface::config`, translated push by push from the source. -/
def Interface.config (i : Interface) : String :=
  let c := "[Match]\n"
  let c := match i.name with
    | some n => c ++ "Name=" ++ n ++ "\n"
    | none => c
  let c := match i.mac_address with
    | some m => c ++ "MACAddress=" ++ m.render ++ "\n"
    | none => c
  let c := c ++ "\n[Network]\n"
  let c := i.nameservers.foldl (fun c ns => c ++ "DNS=" ++ ns.render ++ "\n") c
  let c := match i.bond with
    | some b => c ++ "Bond=" ++ b ++ "\n"
    | none => c
  let c := i.ip_addresses.foldl
    (fun c a => c ++ "\n[Address]\nAddress=" ++ a.render ++ "\n") c
  let c := i.routes.foldl
    (fun c r =>
      c ++ "\n[Route]\nDestination=" ++ r.destination.render ++
        "\nGateway=" ++ r.gateway.render ++ "\n") c
  c

/-- `Device::unit_name`:
`format!("{:02}-{}.netdev", priority.unwrap_or(10), name)`. -/
def Device.unit_name (d : Device) : String :=
  padPriority (d.priority.getD 10) ++ "-" ++ d.name ++ ".netdev"

/-- `Device::config`, translated push by push from the source. -/
def Device.config (d : Device) : String :=
  let c := "[NetDev]\n"
  let c := c ++ "Name=" ++ d.name ++ "\n"
  let c := c ++ "Kind=" ++ d.kind ++ "\n"
  let c := c ++ "MACAddress=" ++ d.mac_address.render ++ "\n"
  d.sections.foldl
    (fun c s =>
      s.attributes.foldl (fun c kv => c ++ kv.1 ++ "=" ++ kv.2 ++ "\n")
        (c ++ "\n[" ++ s.name ++ "]\n"))
    c

/-- Sanity check mirroring the source test `mac_addr_display`. -/
theorem macAddrDisplayFixture :
    (MacAddr.mk 0xf4 0x00 0x34 0x09 0x73 0xee).render = "f4:00:34:09:73:ee" := by
  decide

/-- Sanity check mirroring the source test `interface_unit_name`. -/
theorem interfaceUnitNameFixture :
    Interface.unit_name ⟨none, some ⟨0, 0, 0, 0, 0, 0⟩, some 20, [], [], [], none⟩ =
      some "20-00:00:00:00:00:00.network" := by
  decide

/-- Sanity check mirroring the second case of the source test
`interface_config` (the minimal interface). -/
theorem interfaceConfigMinimalFixture :
    Interface.config ⟨none, none, none, [], [], [], none⟩ = "[Match]\n\n[Network]\n" := by
  decide

/-- Sanity check mirroring the first case of the source test `device_config`. -/
theorem deviceConfigFixture :
    Device.config
      ⟨"vlan0", "vlan", ⟨0, 0, 0, 0, 0, 0⟩, some 20,
        [⟨"Test", [("foo", "bar"), ("oingo", "boingo")]⟩, ⟨"Empty", []⟩]⟩ =
      "[NetDev]\nName=vlan0\nKind=vlan\nMACAddress=00:00:00:00:00:00\n\n[Test]\nfoo=bar\noingo=boingo\n\n[Empty]\n" := by
  decide

/-- Two lowercase hexadecimal digits for one byte, high nibble first,
following the spec wording "lowercase hexadecimal, each zero-padded to
exactly 2 digits". -/
def hexByteSpec (b : Fin 256) : String :=
  List.asString [Nat.digitChar (b.val / 16), Nat.digitChar (b.val % 16)]

/-- The source's `{:02x}` byte rendering agrees with the two-digit
lowercase hexadecimal description, for every byte. -/
theorem byteHex_eq_hexByteSpec : ∀ b : Fin 256, byteHex b = hexByteSpec b := by
  decide

/-- C2: for an interface with a name or a MAC address, `unit_name` is
`"{priority:02}-{identifier}.network"`, where the identifier is the name
when present (whatever the MAC field holds) and the rendered MAC address
otherwise. -/
theorem interface_unit_name_identifier (i : Interface)
    (h : i.name ≠ none ∨ i.mac_address ≠ none) :
    i.unit_name = some (padPriority (i.priority.getD 10) ++ "-" ++
      (i.name.getD ((i.mac_address.map MacAddr.render).getD "")) ++ ".network") := by
  obtain ⟨name, mac, prio, ns, ips, rts, bond⟩ := i
  cases name with
  | some n => simp [Interface.unit_name]
  | none =>
    cases mac with
    | some m => simp [Interface.unit_name]
    | none => simp at h

/-- Witness for C2 at a concrete named interface. -/
theorem interface_unit_name_identifier_witness :
    Interface.unit_name ⟨some "lo", none, some 20, [], [], [], none⟩ =
      some "20-lo.network" := by
  rw [interface_unit_name_identifier ⟨some "lo", none, some 20, [], [], [], none⟩
    (Or.inl (by simp))]
  decide

/-- C3: `unit_name` fails (modelled as `none`, standing for the source's
`panic!`) exactly when both `name` and `mac_address` are absent; it never
substitutes a default identifier.  All other operations of the module are
total by construction (they land in `String`). -/
theorem interface_unit_name_none_iff (i : Interface) :
    i.unit_name = none ↔ i.name = none ∧ i.mac_address = none := by
  obtain ⟨name, mac, prio, ns, ips, rts, bond⟩ := i
  cases name <;> cases mac <;> simp [Interface.unit_name]

/-- C6: `Device::unit_name` is total and always
`"{priority:02}-{name}.netdev"`, with the priority defaulted to 10 when
absent; no field can make it fail. -/
theorem device_unit_name_format (d : Device) :
    (∀ p, d.priority = some p →
      d.unit_name = padPriority p ++ "-" ++ d.name ++ ".netdev") ∧
    (d.priority = none →
      d.unit_name = padPriority 10 ++ "-" ++ d.name ++ ".netdev") := by
  constructor
  · intro p hp
    simp [Device.unit_name, hp]
  · intro hp
    simp [Device.unit_name, hp]

/-- Witness for C6 at a concrete device. -/
theorem device_unit_name_format_witness :
    Device.unit_name ⟨"vlan0", "vlan", ⟨0, 0, 0, 0, 0, 0⟩, some 20, []⟩ =
      "20-vlan0.netdev" := by
  rw [(device_unit_name_format ⟨"vlan0", "vlan", ⟨0, 0, 0, 0, 0, 0⟩, some 20, []⟩).1 20 rfl]
  decide

/-- C7: a MAC address renders as the six bytes in lowercase two-digit
hexadecimal joined by colons, and the concrete example from the source
test renders as `"f4:00:34:09:73:ee"`. -/
theorem macaddr_render_hex (m : MacAddr) :
    m.render =
      hexByteSpec m.b0 ++ ":" ++ hexByteSpec m.b1 ++ ":" ++ hexByteSpec m.b2 ++ ":" ++
      hexByteSpec m.b3 ++ ":" ++ hexByteSpec m.b4 ++ ":" ++ hexByteSpec m.b5 ∧
    (MacAddr.mk 0xf4 0x00 0x34 0x09 0x73 0xee).render = "f4:00:34:09:73:ee" := by
  constructor
  · simp [MacAddr.render, byteHex_eq_hexByteSpec]
  · decide

/-- C8 as stated is false: the source's `prefix` field is a `u8`, so an
`IpNetwork` with a prefix above 128 (here 200) is a perfectly
representable value that the module renders without complaint. -/
theorem ipnetwork_prefix_range_counterexample :
    ¬ (∀ n : IpNetwork,
        n.prefixLen.val ≤ 128 ∧
        n.render = n.addr.render ++ "/" ++ Nat.repr n.prefixLen.val) := by
  intro h
  have h200 := (h ⟨⟨"10.0.0.1"⟩, 200⟩).1
  exact absurd h200 (by decide)

/-- C8 amended: every `IpNetwork` has a prefix in the `u8` range 0–255,
and renders as `"{address}/{prefix}"` using the address's canonical text
form. -/
theorem ipnetwork_prefix_range_and_render (n : IpNetwork) :
    n.prefixLen.val ≤ 255 ∧
    n.render = n.addr.render ++ "/" ++ Nat.repr n.prefixLen.val :=
  ⟨Nat.lt_succ_iff.mp n.prefixLen.isLt, rfl⟩

/-- C9: the configuration document produced by `Interface::config` does
not depend on the priority field; two interfaces differing only in
priority produce byte-identical output. -/
theorem interface_config_priority_independent (i : Interface) (p q : Option Nat) :
    ({ i with priority := p } : Interface).config =
      ({ i with priority := q } : Interface).config := by
  cases i
  rfl

/-- The digit accumulator of `Nat.toDigitsCore` never shrinks. -/
theorem toDigitsCore_length_mono (b : Nat) :
    ∀ (f n : Nat) (l : List Char), l.length ≤ (Nat.toDigitsCore b f n l).length := by
  intro f
  induction f with
  | zero => intro n l; simp [Nat.toDigitsCore]
  | succ f ih =>
    intro n l
    simp only [Nat.toDigitsCore]
    split
    · simp
    · exact le_trans (by simp) (ih (n / b) (Nat.digitChar (n % b) :: l))

/-- With positive fuel, `Nat.toDigitsCore` emits at least one digit. -/
theorem toDigitsCore_length_succ_le (b f n : Nat) (l : List Char) :
    l.length + 1 ≤ (Nat.toDigitsCore b (f + 1) n l).length := by
  simp only [Nat.toDigitsCore]
  split
  · simp
  · simpa using toDigitsCore_length_mono b f (n / b) (Nat.digitChar (n % b) :: l)

/-- One unfolding step of `Nat.toDigitsCore` at positive fuel. -/
theorem toDigitsCore_succ_eq (b f n : Nat) (ds : List Char) :
    Nat.toDigitsCore b (f + 1) n ds =
      if n / b = 0 then Nat.digitChar (n % b) :: ds
      else Nat.toDigitsCore b f (n / b) (Nat.digitChar (n % b) :: ds) := rfl

/-- A number of at least two decimal digits has a decimal representation
of length at least two. -/
theorem two_le_length_repr (p : Nat) (h : 10 ≤ p) : 2 ≤ (Nat.repr p).length := by
  obtain ⟨f, rfl⟩ : ∃ f, p = f + 1 := ⟨p - 1, by omega⟩
  have hdiv : ¬ ((f + 1) / 10 = 0) := by
    have h1 : 1 ≤ (f + 1) / 10 := (Nat.one_le_div_iff (by norm_num)).mpr h
    omega
  have hstep := toDigitsCore_succ_eq 10 (f + 1) (f + 1) []
  rw [if_neg hdiv] at hstep
  show 2 ≤ (Nat.toDigitsCore 10 (f + 1 + 1) (f + 1) []).asString.length
  rw [hstep]
  show 2 ≤ (Nat.toDigitsCore 10 (f + 1) ((f + 1) / 10) [Nat.digitChar ((f + 1) % 10)]).length
  simpa using
    toDigitsCore_length_succ_le 10 f ((f + 1) / 10) [Nat.digitChar ((f + 1) % 10)]

/-- A single decimal digit has a decimal representation of length one. -/
theorem length_repr_lt_ten (p : Nat) (h : p < 10) : (Nat.repr p).length = 1 := by
  interval_cases p <;> rfl

/-- The `{:02}` priority rendering is the decimal representation, padded
with one zero exactly for single-digit values. -/
theorem padPriority_eq (p : Nat) :
    padPriority p = if p < 10 then "0" ++ Nat.repr p else Nat.repr p := by
  by_cases h : p < 10
  · simp [padPriority, zeroPad2, length_repr_lt_ten p h, h]
  · have h2 := two_le_length_repr p (by omega)
    rw [padPriority, zeroPad2, if_neg (by omega), if_neg h]

/-- The `{:02}` priority rendering is never shorter than two characters. -/
theorem two_le_padPriority_length (p : Nat) : 2 ≤ (padPriority p).length := by
  by_cases h : p < 10
  · rw [padPriority_eq, if_pos h]
    have h1 := length_repr_lt_ten p h
    have h0 : ("0" : String).length = 1 := rfl
    rw [String.length_append, h0, h1]
  · rw [padPriority_eq, if_neg h]
    exact two_le_length_repr p (by omega)

/-- C4: when the priority field is absent, `unit_name` behaves exactly as
with priority 10, for interfaces and devices alike; and the priority is
always rendered through `padPriority`, which zero-pads the decimal form
to at least two digits. -/
theorem priority_default_and_zero_padding :
    (∀ i : Interface, i.priority = none →
      i.unit_name = ({ i with priority := some 10 } : Interface).unit_name) ∧
    (∀ d : Device, d.priority = none →
      d.unit_name = ({ d with priority := some 10 } : Device).unit_name) ∧
    (∀ p : Nat, 2 ≤ (padPriority p).length ∧
      padPriority p = if p < 10 then "0" ++ Nat.repr p else Nat.repr p) := by
  refine ⟨?_, ?_, ?_⟩
  · intro i hp
    obtain ⟨name, mac, prio, ns, ips, rts, bond⟩ := i
    cases hp
    cases name <;> cases mac <;> simp [Interface.unit_name]
  · intro d hp
    obtain ⟨name, kind, mac, prio, secs⟩ := d
    cases hp
    simp [Device.unit_name]
  · intro p
    exact ⟨two_le_padPriority_length p, padPriority_eq p⟩

/-- Witness for C4 at concrete inputs. -/
theorem priority_default_and_zero_padding_witness :
    Interface.unit_name ⟨some "lo", none, none, [], [], [], none⟩ =
      Interface.unit_name ⟨some "lo", none, some 10, [], [], [], none⟩ ∧
    Device.unit_name ⟨"vlan0", "vlan", ⟨0, 0, 0, 0, 0, 0⟩, none, []⟩ =
      Device.unit_name ⟨"vlan0", "vlan", ⟨0, 0, 0, 0, 0, 0⟩, some 10, []⟩ ∧
    2 ≤ (padPriority 7).length :=
  ⟨priority_default_and_zero_padding.1 ⟨some "lo", none, none, [], [], [], none⟩ rfl,
   priority_default_and_zero_padding.2.1 ⟨"vlan0", "vlan", ⟨0, 0, 0, 0, 0, 0⟩, none, []⟩ rfl,
   (priority_default_and_zero_padding.2.2 7).1⟩

/-- Concatenation of a list of strings. -/
def catStrings : List String → String
  | [] => ""
  | s :: rest => s ++ catStrings rest

/-- A section body: every line followed by a `\n` terminator. -/
def renderBlock (ls : List String) : String :=
  catStrings (ls.map (fun l => l ++ "\n"))

/-- Blocks separated by one blank line each, per the spec's "each section
separated by one blank line from the previous". -/
def joinBlocks : List String → String
  | [] => ""
  | [b] => b
  | b :: b2 :: rest => b ++ "\n" ++ joinBlocks (b2 :: rest)

/-- A conditionally present line: emitted exactly when the optional
field is present, never as a placeholder. -/
def lineOpt (pre : String) : Option String → List String
  | some v => [pre ++ v]
  | none => []

/-- The `[Match]` section described by the spec: the header always, then
a `Name=` line iff the name is present, then a `MACAddress=` line iff the
MAC address is present. -/
def Interface.matchSectionLines (i : Interface) : List String :=
  "[Match]" :: (lineOpt "Name=" i.name ++
    lineOpt "MACAddress=" (i.mac_address.map MacAddr.render))

/-- The `[Network]` section described by the spec: the header, one `DNS=`
line per nameserver in input order, then a `Bond=` line iff present. -/
def Interface.networkSectionLines (i : Interface) : List String :=
  "[Network]" :: (i.nameservers.map (fun ns => "DNS=" ++ ns.render) ++
    lineOpt "Bond=" i.bond)

/-- One `[Address]` section: the header and exactly one `Address=` line. -/
def IpNetwork.addressSectionLines (a : IpNetwork) : List String :=
  ["[Address]", "Address=" ++ a.render]

/-- One `[Route]` section: the header, a `Destination=` line, then a
`Gateway=` line. -/
def NetworkRoute.routeSectionLines (r : NetworkRoute) : List String :=
  ["[Route]", "Destination=" ++ r.destination.render,
    "Gateway=" ++ r.gateway.render]

/-- The interface configuration document as the spec words it: the
`[Match]` section, the `[Network]` section, one `[Address]` section per
address in input order, one `[Route]` section per route in input order,
separated by single blank lines. -/
def Interface.configSpec (i : Interface) : String :=
  joinBlocks (renderBlock i.matchSectionLines :: renderBlock i.networkSectionLines ::
    (i.ip_addresses.map (fun a => renderBlock a.addressSectionLines) ++
     i.routes.map (fun r => renderBlock r.routeSectionLines)))

/-- A custom netdev section as the spec words it: the `[{name}]` header
and one `{key}={value}` line per attribute in input order. -/
def Section.sectionLines (s : Section) : List String :=
  ("[" ++ s.name ++ "]") :: s.attributes.map (fun kv => kv.1 ++ "=" ++ kv.2)

/-- The device configuration document as the spec words it: the
`[NetDev]` section with its three unconditional lines, then each custom
section in input order, separated by single blank lines. -/
def Device.configSpec (d : Device) : String :=
  joinBlocks
    (renderBlock ["[NetDev]", "Name=" ++ d.name, "Kind=" ++ d.kind,
        "MACAddress=" ++ d.mac_address.render] ::
      d.sections.map (fun s => renderBlock s.sectionLines))

theorem catStrings_append (l1 l2 : List String) :
    catStrings (l1 ++ l2) = catStrings l1 ++ catStrings l2 := by
  induction l1 with
  | nil => simp [catStrings]
  | cons s rest ih => simp [catStrings, ih, String.append_assoc]

theorem foldl_append_eq {α : Type} (f : α → String) :
    ∀ (l : List α) (init : String),
      l.foldl (fun c x => c ++ f x) init = init ++ catStrings (l.map f) := by
  intro l
  induction l with
  | nil => intro init; simp [catStrings]
  | cons x rest ih =>
    intro init
    simp [catStrings, ih, String.append_assoc]

theorem joinBlocks_cons (b : String) (rest : List String) :
    joinBlocks (b :: rest) = b ++ catStrings (rest.map (fun x => "\n" ++ x)) := by
  induction rest generalizing b with
  | nil => simp [joinBlocks, catStrings]
  | cons b2 rest2 ih => simp [joinBlocks, catStrings, ih, String.append_assoc]

theorem foldl_dns_eq :
    ∀ (l : List IpAddr) (init : String),
      l.foldl (fun c x => c ++ "DNS=" ++ x.render ++ "\n") init =
        init ++ catStrings (l.map (fun x => "DNS=" ++ x.render ++ "\n")) := by
  intro l
  induction l with
  | nil => intro init; simp [catStrings]
  | cons x rest ih =>
    intro init
    rw [List.foldl_cons, ih]
    simp [catStrings, String.append_assoc]

theorem foldl_addresses_eq :
    ∀ (l : List IpNetwork) (init : String),
      l.foldl (fun c a => c ++ "\n[Address]\nAddress=" ++ a.render ++ "\n") init =
        init ++ catStrings
          (l.map (fun a => "\n[Address]\nAddress=" ++ a.render ++ "\n")) := by
  intro l
  induction l with
  | nil => intro init; simp [catStrings]
  | cons x rest ih =>
    intro init
    rw [List.foldl_cons, ih]
    simp [catStrings, String.append_assoc]

theorem foldl_routes_eq :
    ∀ (l : List NetworkRoute) (init : String),
      l.foldl
        (fun c r =>
          c ++ "\n[Route]\nDestination=" ++ r.destination.render ++
            "\nGateway=" ++ r.gateway.render ++ "\n") init =
        init ++ catStrings
          (l.map (fun r =>
            "\n[Route]\nDestination=" ++ r.destination.render ++
              "\nGateway=" ++ r.gateway.render ++ "\n")) := by
  intro l
  induction l with
  | nil => intro init; simp [catStrings]
  | cons x rest ih =>
    intro init
    rw [List.foldl_cons, ih]
    simp [catStrings, String.append_assoc]

theorem append_nl_gateway (s : String) :
    s ++ "\n" ++ "Gateway=" = s ++ "\nGateway=" := by
  rw [String.append_assoc]
  rfl

theorem interface_config_eq_configSpec (i : Interface) : i.config = i.configSpec := by
  obtain ⟨name, mac, prio, ns, ips, rts, bond⟩ := i
  cases name <;> cases mac <;> cases bond <;>
    simp [Interface.config, Interface.configSpec, Interface.matchSectionLines,
      Interface.networkSectionLines, IpNetwork.addressSectionLines,
      NetworkRoute.routeSectionLines, renderBlock, joinBlocks_cons, lineOpt,
      foldl_dns_eq, foldl_addresses_eq, foldl_routes_eq, append_nl_gateway,
      catStrings_append, catStrings, List.map_map,
      Function.comp_def, String.append_empty, String.empty_append,
      ← String.append_assoc]

/-- C1: the interface configuration document consists, in this exact
order, of the `[Match]` section (header always; `Name=` line iff the name
is present; `MACAddress=` line iff the MAC is present), the `[Network]`
section (one `DNS=` line per nameserver in input order, then a `Bond=`
line iff present), one `[Address]` section per address in input order
with exactly one `Address=` line, and one `[Route]` section per route in
input order with a `Destination=` then a `Gateway=` line, consecutive
sections separated by one blank line. -/
theorem interface_config_section_order (i : Interface) : i.config = i.configSpec :=
  interface_config_eq_configSpec i

theorem foldl_attributes_eq :
    ∀ (l : List (String × String)) (init : String),
      l.foldl (fun c kv => c ++ kv.1 ++ "=" ++ kv.2 ++ "\n") init =
        init ++ catStrings (l.map (fun kv => kv.1 ++ "=" ++ kv.2 ++ "\n")) := by
  intro l
  induction l with
  | nil => intro init; simp [catStrings]
  | cons x rest ih =>
    intro init
    rw [List.foldl_cons, ih]
    simp [catStrings, String.append_assoc]

theorem foldl_sections_eq :
    ∀ (l : List Section) (init : String),
      l.foldl
        (fun c s =>
          c ++ "\n[" ++ s.name ++ "]\n" ++
            catStrings (s.attributes.map (fun kv => kv.1 ++ "=" ++ kv.2 ++ "\n"))) init =
        init ++ catStrings
          (l.map (fun s =>
            "\n[" ++ s.name ++ "]\n" ++
              catStrings (s.attributes.map (fun kv => kv.1 ++ "=" ++ kv.2 ++ "\n")))) := by
  intro l
  induction l with
  | nil => intro init; simp [catStrings]
  | cons x rest ih =>
    intro init
    rw [List.foldl_cons, ih]
    simp [catStrings, String.append_assoc]

theorem append_bracket_nl (s : String) :
    s ++ "]" ++ "\n" = s ++ "]\n" := by
  rw [String.append_assoc]
  rfl

theorem device_config_eq_configSpec (d : Device) : d.config = d.configSpec := by
  obtain ⟨name, kind, mac, prio, secs⟩ := d
  simp only [Device.config, foldl_attributes_eq]
  simp [Device.configSpec, Section.sectionLines, renderBlock, joinBlocks_cons,
    foldl_sections_eq, append_bracket_nl, catStrings_append, catStrings,
    List.map_map, Function.comp_def, String.append_empty, String.empty_append,
    ← String.append_assoc]

/-- C5: the device configuration document starts with the `[NetDev]`
header followed unconditionally by the `Name=`, `Kind=` and `MACAddress=`
lines in that order, then each custom section in input order, preceded by
one blank line, with its `[{name}]` header and one `{key}={value}` line
per attribute in input order (duplicates emitted independently; an
attribute-less section contributes only its header line). -/
theorem device_config_section_order (d : Device) : d.config = d.configSpec :=
  device_config_eq_configSpec d

/-- A string that ends in a newline (and is hence non-empty). -/
def endsNl (s : String) : Prop := ∃ u : String, s = u ++ "\n"

theorem endsNl_append (s t : String) (h : endsNl t) : endsNl (s ++ t) := by
  obtain ⟨u, rfl⟩ := h
  exact ⟨s ++ u, (String.append_assoc s u "\n").symm⟩

theorem endsNl_ne_empty (s : String) (h : endsNl s) : s ≠ "" := by
  obtain ⟨u, rfl⟩ := h
  intro hc
  have hd := congrArg String.data hc
  rw [String.data_append] at hd
  have hnl : ("\n" : String).data = ['\n'] := rfl
  have hem : ("" : String).data = [] := rfl
  rw [hnl, hem] at hd
  simp at hd

theorem renderBlock_cons (l : String) (rest : List String) :
    renderBlock (l :: rest) = (l ++ "\n") ++ renderBlock rest := rfl

theorem endsNl_renderBlock (ls : List String) (h : ls ≠ []) : endsNl (renderBlock ls) := by
  induction ls with
  | nil => exact absurd rfl h
  | cons l rest ih =>
    cases rest with
    | nil =>
      refine ⟨l, ?_⟩
      show (l ++ "\n") ++ renderBlock [] = l ++ "\n"
      simp [renderBlock, catStrings]
    | cons l2 rest2 =>
      rw [renderBlock_cons]
      exact endsNl_append (l ++ "\n") _ (ih (by simp))

theorem endsNl_joinBlocks (bs : List String) (hne : bs ≠ [])
    (h : ∀ b ∈ bs, endsNl b) : endsNl (joinBlocks bs) := by
  induction bs with
  | nil => exact absurd rfl hne
  | cons b rest ih =>
    cases rest with
    | nil => simpa [joinBlocks] using h b (by simp)
    | cons b2 rest2 =>
      have hrest := ih (by simp) (fun x hx => h x (by simp [hx]))
      show endsNl (b ++ "\n" ++ joinBlocks (b2 :: rest2))
      rw [String.append_assoc]
      exact endsNl_append b _ (endsNl_append "\n" _ hrest)

/-- C10: both configuration serializers return a non-empty string whose
last character is a newline — every emitted line, including the final
one, is terminated by a newline. -/
theorem config_nonempty_and_newline_terminated :
    (∀ i : Interface, i.config ≠ "" ∧ endsNl i.config) ∧
    (∀ d : Device, d.config ≠ "" ∧ endsNl d.config) := by
  constructor
  · intro i
    have h : endsNl i.config := by
      rw [interface_config_eq_configSpec i, Interface.configSpec]
      refine endsNl_joinBlocks _ (by simp) ?_
      intro b hb
      rcases List.mem_cons.mp hb with rfl | hb
      · exact endsNl_renderBlock _ (by simp [Interface.matchSectionLines])
      rcases List.mem_cons.mp hb with rfl | hb
      · exact endsNl_renderBlock _ (by simp [Interface.networkSectionLines])
      rcases List.mem_append.mp hb with hb | hb
      · obtain ⟨a, _, rfl⟩ := List.mem_map.mp hb
        exact endsNl_renderBlock _ (by simp [IpNetwork.addressSectionLines])
      · obtain ⟨r, _, rfl⟩ := List.mem_map.mp hb
        exact endsNl_renderBlock _ (by simp [NetworkRoute.routeSectionLines])
    exact ⟨endsNl_ne_empty _ h, h⟩
  · intro d
    have h : endsNl d.config := by
      rw [device_config_eq_configSpec d, Device.configSpec]
      refine endsNl_joinBlocks _ (by simp) ?_
      intro b hb
      rcases List.mem_cons.mp hb with rfl | hb
      · exact endsNl_renderBlock _ (by simp)
      · obtain ⟨s, _, rfl⟩ := List.mem_map.mp hb
        exact endsNl_renderBlock _ (by simp [Section.sectionLines])
    exact ⟨endsNl_ne_empty _ h, h⟩
